import Mathlib

/-!
Shallow embedding of the Zoom automation orchestrator
(`src/packages/server/zoom-automator.ts`) and the `/status` route of
`src/packages/server/oauth-capture-save.ts` of the
google-meet-zoom-status repository, together with theorems settling the
specification claims about it.

Conventions of the embedding:
* The orchestrator's instance fields become the `AutomatorState` structure;
  the Playwright `BrowserContext`/`Page` references are tracked as booleans
  (`contextOpen`, `pageOpen`) since only their nullness is ever branched on.
* Asynchronous environment behaviour (how long `context.close()` takes,
  whether a join step fails and with which thrown value, what is visible on
  the page during polling) is passed in explicitly as environment values.
* JavaScript regular-expression tests on strings are embedded as executable
  case-insensitive substring/pattern scanners over `List Char`.
* Thrown JavaScript values are `JsVal` (an `instanceof Error` flag plus a
  message); fallible operations return `Except JsVal _`.
-/

namespace GMeetZoom

/-! ## Case-insensitive string scanning (embedding the JS regex tests) -/

/-- Case-insensitive character comparison, as used by the `i` flag of the
source's regular expressions. -/
def lcEq (a b : Char) : Bool := a.toLower = b.toLower

/-- If `s` starts with the literal pattern `pat` (case-insensitively),
return the rest of `s`; otherwise `none`. -/
def dropLit : List Char → List Char → Option (List Char)
  | [], rest => some rest
  | _ :: _, [] => none
  | p :: ps, c :: cs => if lcEq p c then dropLit ps cs else none

/-- `s` starts with `pat`, case-insensitively. -/
def startsCI (pat s : List Char) : Bool := (dropLit pat s).isSome

/-- `s` contains `pat` as a substring, case-insensitively: the embedding of a
JS `/literal/i.test(s)` alternative. -/
def hasSubCI (pat : List Char) : List Char → Bool
  | [] => pat.isEmpty
  | c :: cs => startsCI pat (c :: cs) || hasSubCI pat cs

/-- Match of `Timeout \d+ms exceeded` (case-insensitive) anchored at the head
of `s`: the literal `timeout `, then at least one digit, then `ms exceeded`. -/
def timeoutMsAt (s : List Char) : Bool :=
  match dropLit "timeout ".toList s with
  | none => false
  | some rest =>
    match rest with
    | [] => false
    | d :: ds =>
      d.isDigit && (dropLit "ms exceeded".toList (ds.dropWhile Char.isDigit)).isSome

/-- Somewhere in `s` there is a match of `Timeout \d+ms exceeded`
(case-insensitive). -/
def timeoutMsSub : List Char → Bool
  | [] => false
  | c :: cs => timeoutMsAt (c :: cs) || timeoutMsSub cs

/-- Embedding of the source's retry classifier regex
`/goto: Timeout|Timeout \d+ms exceeded|Timed out/i` applied to a message. -/
def retryRegexTest (msg : String) : Bool :=
  hasSubCI "goto: timeout".toList msg.toList
    || timeoutMsSub msg.toList
    || hasSubCI "timed out".toList msg.toList

/-! ## Data model: the orchestrator's fields -/

/-- `AutomatorStatus` from `zoom-automator.ts`. -/
inductive AutomatorStatus where
  | available
  | in_meeting
  | auth_required
  | starting
  | error
deriving DecidableEq, Repr

/-- The mutable instance fields of `ZoomAutomator` that the claims are about.
`contextOpen`/`pageOpen` embed the nullness of `this.context`/`this.page`. -/
structure AutomatorState where
  contextOpen : Bool
  pageOpen : Bool
  inAutomationMeeting : Bool
  authenticated : Option Bool
  state : AutomatorStatus
  lastMessage : String
deriving DecidableEq, Repr

/-- A thrown JavaScript value: whether it is an `Error` instance, and its
message (for non-`Error` values, `String(error)`). -/
structure JsVal where
  isErrorInstance : Bool
  message : String
deriving DecidableEq, Repr

/-- `ZoomAutomator.isRetryableJoinTimeout`: `false` for non-`Error` values,
otherwise the regex test on the message. -/
def isRetryableJoinTimeout (v : JsVal) : Bool :=
  v.isErrorInstance && retryRegexTest v.message

/-! ## Browser session manager -/

/-- `ensureContext`: no-op when a context exists, otherwise launch a
persistent context (the `headless` flag does not affect the tracked state).
Returns the new state and whether a fresh context was launched. -/
def ensureContext (s : AutomatorState) (_headless : Bool) : AutomatorState × Bool :=
  if s.contextOpen then (s, false)
  else ({ s with contextOpen := true }, true)

/-- The `context.on('close', ...)` handler registered in `ensureContext`
(`zoom-automator.ts` lines 313–318): it nulls `this.context` and `this.page`
and sets `this.inAutomationMeeting = false`, touching nothing else. -/
def contextCloseHandler (s : AutomatorState) : AutomatorState :=
  { s with contextOpen := false, pageOpen := false, inAutomationMeeting := false }

/-- Environment for one `closeContext` call: how long `context.close()` takes
to settle (`none` = it hangs forever; a swallowed rejection settles too, via
`.catch(() => undefined)`), whether `context.browser()` is non-null, and how
long `browser.close()` takes to settle. -/
structure CloseEnv where
  closeDuration : Option Nat
  browserPresent : Bool
  browserCloseDuration : Option Nat
deriving DecidableEq, Repr

/-- Elapsed time of the fallback branch of `closeContext`: the 10 s race
timeout has fired; if a browser is present its close is raced against a
further 5 s timeout (the rejection of that race is caught and only logged). -/
def closeFallbackTime (env : CloseEnv) : Nat :=
  10000 +
    (if env.browserPresent then
       match env.browserCloseDuration with
       | some u => if u < 5000 then u else 5000
       | none => 5000
     else 0)

/-- `closeContext`: if no context, do nothing. Otherwise null the
context/page references, set `inAutomationMeeting := false`, then race the
graceful `context.close()` against a 10 s timer; on timeout fall back to
`browser.close()` raced against a 5 s timer. Every rejection is caught, so
the call always resolves. Returns the new state, the elapsed milliseconds,
and the (always successful) result. -/
def closeContext (s : AutomatorState) (env : CloseEnv) :
    AutomatorState × Nat × Except JsVal Unit :=
  if s.contextOpen then
    let s' := { s with contextOpen := false, pageOpen := false,
                       inAutomationMeeting := false }
    let elapsed :=
      match env.closeDuration with
      | some t => if t < 10000 then t else closeFallbackTime env
      | none => closeFallbackTime env
    (s', elapsed, .ok ())
  else (s, 0, .ok ())

/-! ## leaveMeeting and dispose -/

/-- `leaveMeeting` (the queued body): when no context exists, normalize state
without any close attempt; otherwise mark `starting`, run `closeContext`,
wait 400 ms, then normalize. The `catch` branch of the source is unreachable
in the embedding because `closeContext` never rejects. Returns the new
state, the result, the number of session-close attempts, and elapsed ms. -/
def leaveMeeting (s : AutomatorState) (env : CloseEnv) :
    AutomatorState × Except JsVal Unit × Nat × Nat :=
  if !s.contextOpen then
    ({ s with inAutomationMeeting := false,
              state := if s.authenticated = some false then .auth_required
                       else .available,
              lastMessage := "No active browser session" },
     .ok (), 0, 0)
  else
    let s1 := { s with state := .starting,
                       lastMessage := "Closing automation browser session" }
    let c := closeContext s1 env
    ({ c.1 with inAutomationMeeting := false,
                state := if c.1.authenticated = some false then .auth_required
                         else .available,
                lastMessage := "Automation meeting ended and browser session closed" },
     .ok (), 1, c.2.1 + 400)

/-- `dispose` (the queued body): close the context and reset to baseline. -/
def dispose (s : AutomatorState) (env : CloseEnv) : AutomatorState × Nat :=
  let c := closeContext s env
  ({ c.1 with inAutomationMeeting := false, state := .available,
              lastMessage := "Stopped" }, c.2.1)

/-! ## Authentication detector -/

/-- The relevant observable facts of a Playwright page for
`detectAuthenticated`: its URL and the element counts of the two
"sign in" role locators (Playwright role locators match elements exposed to
the accessibility tree, i.e. not hidden ones). -/
structure PageView where
  url : String
  signInButtonCount : Nat
  signInLinkCount : Nat
deriving DecidableEq, Repr

/-- The alternatives of the URL regex `/signin|login|sso|mfa|verify/i`. -/
def authUrlFragments : List String := ["signin", "login", "sso", "mfa", "verify"]

/-- `detectAuthenticated`: false when the URL matches the sign-in regex, or a
"sign in" button is present, or a "sign in" link is present; true otherwise.
A pure function of the page view: no network access is modelled because the
source performs none. -/
def detectAuthenticated (p : PageView) : Bool :=
  if authUrlFragments.any (fun pat => hasSubCI pat.toList p.url.toList) then
    false
  else if p.signInButtonCount > 0 then
    false
  else if p.signInLinkCount > 0 then
    false
  else
    true

/-! ## Status label (`GET /status` in oauth-capture-save.ts) -/

/-- The `statusLabel` computation of the `GET /status` handler: nested
conditionals on `status.status` with the final branch driven by the
`status.inMeeting` boolean. -/
def statusLabel (state : AutomatorStatus) (inMeetingFlag : Bool) : String :=
  if state = .starting then "Starting"
  else if state = .auth_required then "Auth Required"
  else if state = .error then "Error"
  else if inMeetingFlag then "In Meeting"
  else "Available"

/-- Modelled from the spec: the claim's label mapping, a function of `state`
alone (`starting→"Starting"`, `auth_required→"Auth Required"`,
`error→"Error"`, `in_meeting→"In Meeting"`, else `"Available"`). Used only
to compare the claimed mapping with the code's `statusLabel`. -/
def specStatusLabel (state : AutomatorStatus) : String :=
  match state with
  | .starting => "Starting"
  | .auth_required => "Auth Required"
  | .error => "Error"
  | .in_meeting => "In Meeting"
  | .available => "Available"

/-! ## joinMeeting -/

/-- The message thrown (and stored in `lastMessage`) when authentication is
required during a join attempt. -/
def loginRequiredMsg : String :=
  "Zoom login required. Run POST /auth/login and complete MFA once."

/-- The outcome the environment assigns to one join attempt, after the
context is up and the page obtained: the attempt's step sequence succeeds,
`ensureAuthenticated` reports unauthenticated, or some step throws `v`. -/
inductive AttemptOutcome where
  | success
  | authRequired
  | failure (v : JsVal)
deriving DecidableEq, Repr

/-- The value an attempt outcome throws, if any: the auth-required branch
throws `new Error(this.lastMessage)` with the login-required message. -/
def outcomeThrown : AttemptOutcome → Option JsVal
  | .success => none
  | .authRequired => some { isErrorInstance := true, message := loginRequiredMsg }
  | .failure v => some v

/-- Whether the loop would retry after this outcome: the retry classifier
applied to the thrown value (a successful attempt throws nothing). -/
def outcomeRetryable (o : AttemptOutcome) : Bool :=
  match outcomeThrown o with
  | some v => isRetryableJoinTimeout v
  | none => false

/-- One iteration of the join attempt loop body up to its first throw:
`ensureContext(true)`, `getPage()` (sets `this.page`), then the
environment-chosen outcome. On success `ensureAuthenticated` has recorded
`authenticated := true`; on auth-required it records `false` and the
`auth_required` state before throwing. Step failures are modelled as thrown
after the context and page are up (navigation and UI steps). Returns the
state, whether `ensureContext` launched fresh, and the attempt result. -/
def runAttempt (s : AutomatorState) (o : AttemptOutcome) :
    AutomatorState × Bool × Except JsVal Unit :=
  let e := ensureContext s true
  let s2 := { e.1 with pageOpen := true }
  match o with
  | .success => ({ s2 with authenticated := some true }, e.2, .ok ())
  | .authRequired =>
      ({ s2 with authenticated := some false, state := .auth_required,
                 lastMessage := loginRequiredMsg },
       e.2, .error { isErrorInstance := true, message := loginRequiredMsg })
  | .failure v => (s2, e.2, .error v)

/-- The outer `catch` of `joinMeeting`: unless the state is already
`auth_required`, set `error` state and the failure message; then a final
best-effort `closeContext`; rethrow the error. -/
def joinOuterCatch (s : AutomatorState) (e : JsVal) (cenv : CloseEnv) :
    AutomatorState × Except JsVal Unit :=
  let msg := if e.isErrorInstance then e.message else "Unknown error"
  let s1 :=
    if s.state ≠ .auth_required then
      { s with state := .error,
               lastMessage := "Failed to start automation meeting: " ++ msg }
    else s
  ((closeContext s1 cenv).1, .error e)

/-- The state mutations after a successful attempt loop (`joined = true`). -/
def joinSuccessState (s : AutomatorState) : AutomatorState :=
  { s with inAutomationMeeting := true, authenticated := some true,
           state := .in_meeting, lastMessage := "Automation meeting is active" }

/-- Observable trace of one `joinMeeting` call: how many attempts ran, how
many fresh context launches and `closeContext` calls happened, and whether
the second attempt (if any) started on a freshly launched context. -/
structure JoinTrace where
  attempts : Nat
  launches : Nat
  closes : Nat
  attempt2Fresh : Bool
deriving DecidableEq, Repr

/-- `joinMeeting` (the queued body). The source's `for (attempt = 1..2)`
loop with `break`/`throw` is unrolled: attempt 1 runs; on failure the
per-attempt cleanup `closeContext` runs and the loop continues to attempt 2
only when `isRetryableJoinTimeout` accepts the thrown value and
`attempt < 2`; otherwise the error goes to the outer catch. The
`if (!joined)` fallback after the loop is unreachable (the loop only exits
via `break` or `throw`). `env n` is the environment's outcome for attempt
`n`; `cenv` is the close environment. -/
def joinMeeting (s : AutomatorState) (env : Nat → AttemptOutcome)
    (cenv : CloseEnv) : AutomatorState × Except JsVal Unit × JoinTrace :=
  if s.inAutomationMeeting then
    ({ s with state := .in_meeting,
              lastMessage := "Automation meeting already running" },
     .ok (), ⟨0, 0, 0, false⟩)
  else
    let sStart := { s with state := .starting,
                           lastMessage := "Starting automation meeting" }
    let a1 := runAttempt sStart (env 1)
    match a1.2.2 with
    | .ok _ => (joinSuccessState a1.1, .ok (), ⟨1, a1.2.1.toNat, 0, false⟩)
    | .error e1 =>
      let s1c := (closeContext a1.1 cenv).1
      if isRetryableJoinTimeout e1 then
        let a2 := runAttempt s1c (env 2)
        match a2.2.2 with
        | .ok _ =>
          (joinSuccessState a2.1, .ok (),
           ⟨2, a1.2.1.toNat + a2.2.1.toNat, 1, a2.2.1⟩)
        | .error e2 =>
          let s2c := (closeContext a2.1 cenv).1
          ((joinOuterCatch s2c e2 cenv).1, (joinOuterCatch s2c e2 cenv).2,
           ⟨2, a1.2.1.toNat + a2.2.1.toNat, 3, a2.2.1⟩)
      else
        ((joinOuterCatch s1c e1 cenv).1, (joinOuterCatch s1c e1 cenv).2,
         ⟨1, a1.2.1.toNat, 2, false⟩)

/-! ## waitForMeetingStarted -/

/-- What the environment makes observable during one polling iteration of
`waitForMeetingStarted`: the chosen page's URL and title, whether a pre-join
prompt is visible, which cross-frame meeting-UI texts are visible (by signal
name), and which of the page-level in-meeting signals are visible (by
name). -/
structure PollObs where
  url : String
  title : String
  preJoinVisible : Bool
  frameVisible : List String
  signalVisible : List String
deriving DecidableEq, Repr

/-- The signal names of `findMeetingUiSignalAcrossFrames`, in source order;
the first whose text is visible in some frame wins. -/
def frameSignalNames : List String :=
  ["join-audio", "start-video", "participants", "reactions", "share-screen",
   "security", "ai-companion", "end"]

/-- `findMeetingUiSignalAcrossFrames`: first frame signal visible per the
observation. -/
def findMeetingUiSignal (o : PollObs) : Option String :=
  frameSignalNames.find? (fun n => o.frameVisible.contains n)

/-- The `inMeetingSignals` list of `waitForMeetingStarted`, in source order,
each with its `strong` flag — in the source every entry is `strong: true`. -/
def inMeetingSignals : List (String × Bool) :=
  [("role-leave-end", true), ("text-leave-end", true), ("testid-leave-end", true),
   ("host-now-banner", true), ("controlbar-join-audio", true),
   ("controlbar-start-video", true), ("controlbar-audio", true),
   ("controlbar-video", true), ("meeting-banner-mic-cam", true)]

/-- `!/\/wc\/home/i.test(url) && !/\/signin/i.test(url)`. -/
def movedOffHome (url : String) : Bool :=
  !(hasSubCI "/wc/home".toList url.toList) && !(hasSubCI "/signin".toList url.toList)

/-- Match of `/wc/` then at least one digit then `/start` or `/join`,
anchored at the head of `s`: one position of `/\/wc\/\d+\/(start|join)/i`. -/
def wcStartJoinAt (s : List Char) : Bool :=
  match dropLit "/wc/".toList s with
  | none => false
  | some rest =>
    match rest with
    | [] => false
    | d :: ds =>
      d.isDigit &&
        (let after := ds.dropWhile Char.isDigit
         (dropLit "/start".toList after).isSome
           || (dropLit "/join".toList after).isSome)

/-- `/\/wc\/\d+\/(start|join)/i.test(s)`. -/
def wcStartJoinSub : List Char → Bool
  | [] => false
  | c :: cs => wcStartJoinAt (c :: cs) || wcStartJoinSub cs

/-- The matched-signal computation of one polling iteration: the cross-frame
signal (always strong) takes precedence, then the first visible entry of
`inMeetingSignals`, then the title/URL fallback
(`titleLooksInMeeting && /\/wc\/\d+\/(start|join)/i.test(url)`, strong).
Returns the signal name with its strength. -/
def matchedSignalOf (o : PollObs) : Option (String × Bool) :=
  match findMeetingUiSignal o with
  | some n => some ("frame:" ++ n, true)
  | none =>
    match inMeetingSignals.find? (fun sig => o.signalVisible.contains sig.1) with
    | some sig => some sig
    | none =>
      if hasSubCI "zoom meeting".toList o.title.toList && wcStartJoinSub o.url.toList
      then some ("title-zoom-meeting", true)
      else none

/-- The success condition of one polling iteration:
`movedOffHome && matchedSignal && (matchedStrongSignal || !preJoinVisible)`. -/
def meetingStartedCheck (o : PollObs) : Bool :=
  match matchedSignalOf o with
  | some (_, strong) => movedOffHome o.url && (strong || !o.preJoinVisible)
  | none => false

/-- Modelled from the spec: the claim's success condition — moved off the
home/sign-in route, a strong signal matched, and no pre-join prompt
concurrently visible. Used only to compare with the code's
`meetingStartedCheck`. -/
def specMeetingStartedCheck (o : PollObs) : Bool :=
  match matchedSignalOf o with
  | some (_, strong) => movedOffHome o.url && strong && !o.preJoinVisible
  | none => false

/-- The thrown timeout error of `waitForMeetingStarted`. -/
def meetingStartTimeoutErr : JsVal :=
  { isErrorInstance := true,
    message := "Zoom meeting did not reach an active state in time" }

/-- The polling deadline of `waitForMeetingStarted`: `Date.now() + 26000`. -/
def meetingStartDeadlineMs : Nat := 26000

/-- The `while (Date.now() < deadline)` loop of `waitForMeetingStarted`.
`obs i` is what iteration `i` observes and `clock i` the value of
`Date.now() - start` at its loop test. `fuel` is a structural bound only:
each iteration ends in `waitForTimeout(250)`, so a clock advancing by at
least 250 ms per iteration passes the deadline before 105 iterations and
the fuel-exhaustion branch coincides with the deadline branch. -/
def waitLoop (obs : Nat → PollObs) (clock : Nat → Nat) :
    Nat → Nat → Except JsVal Unit
  | _, 0 => .error meetingStartTimeoutErr
  | i, fuel + 1 =>
    if clock i < meetingStartDeadlineMs then
      if meetingStartedCheck (obs i) then .ok ()
      else waitLoop obs clock (i + 1) fuel
    else .error meetingStartTimeoutErr

/-- `waitForMeetingStarted`: run the polling loop from iteration 0. -/
def waitForMeetingStarted (obs : Nat → PollObs) (clock : Nat → Nat) :
    Except JsVal Unit :=
  waitLoop obs clock 0 105

/-! ## Helper lemmas and shared concrete states -/

/-- The orchestrator's fields right after a successful join, as set by
`joinMeeting` on success: used as a concrete reachable starting point. -/
def meetingActiveState : AutomatorState :=
  { contextOpen := true, pageOpen := true, inAutomationMeeting := true,
    authenticated := some true, state := .in_meeting,
    lastMessage := "Automation meeting is active" }

/-- A close environment in which both the graceful close and the fallback
browser close hang. -/
def hungCloseEnv : CloseEnv :=
  { closeDuration := none, browserPresent := true, browserCloseDuration := none }

theorem ensureContext_fst_contextOpen (s : AutomatorState) (b : Bool) :
    ((ensureContext s b).1).contextOpen = true := by
  unfold ensureContext
  split <;> simp_all

theorem ensureContext_snd (s : AutomatorState) (b : Bool) :
    (ensureContext s b).2 = !s.contextOpen := by
  unfold ensureContext
  split <;> simp_all

theorem closeContext_fst (s : AutomatorState) (env : CloseEnv) :
    ((closeContext s env).1).contextOpen = false ∧
    ((closeContext s env).1).pageOpen = (if s.contextOpen then false else s.pageOpen) ∧
    ((closeContext s env).1).inAutomationMeeting
      = (if s.contextOpen then false else s.inAutomationMeeting) ∧
    ((closeContext s env).1).state = s.state ∧
    ((closeContext s env).1).authenticated = s.authenticated := by
  unfold closeContext
  split <;> simp_all

/-! ## C10 -/

/-- C10: the context `close` callback mutates only the context reference,
the page reference and the `inAutomationMeeting` flag (clearing the
references and setting the flag to false); `state`, `authenticated` and
`lastMessage` are left unchanged. -/
theorem contextCloseHandler_frame (s : AutomatorState) :
    (contextCloseHandler s).contextOpen = false ∧
    (contextCloseHandler s).pageOpen = false ∧
    (contextCloseHandler s).inAutomationMeeting = false ∧
    (contextCloseHandler s).state = s.state ∧
    (contextCloseHandler s).authenticated = s.authenticated ∧
    (contextCloseHandler s).lastMessage = s.lastMessage := by
  simp [contextCloseHandler]

/-! ## C1 -/

/-- C1 counterexample: from the in-meeting state, the external context-close
event handler resets `inAutomationMeeting` but leaves `state` at
`in_meeting`, which is neither `available` nor `auth_required`. -/
theorem contextCloseHandler_state_not_reset :
    (contextCloseHandler meetingActiveState).inAutomationMeeting = false ∧
    (contextCloseHandler meetingActiveState).state = .in_meeting ∧
    ¬((contextCloseHandler meetingActiveState).state = .available ∨
      (contextCloseHandler meetingActiveState).state = .auth_required) := by
  decide

/-- C1 (amended): every cause of session closure resets `inAutomationMeeting`
to false, and the explicit paths (`leaveMeeting`, `dispose`) additionally
normalize `state` to `available`/`auth_required`; but the external
context-close handler and the bare `closeContext` (including its
forced-timeout fallback, whose state effect is identical) leave `state`
unchanged. -/
theorem sessionLoss_state_reset (s : AutomatorState) (cenv cenv' : CloseEnv) :
    ((contextCloseHandler s).inAutomationMeeting = false ∧
     (contextCloseHandler s).state = s.state) ∧
    (s.contextOpen = true →
      ((closeContext s cenv).1.inAutomationMeeting = false ∧
       (closeContext s cenv).1.state = s.state)) ∧
    ((leaveMeeting s cenv).1.inAutomationMeeting = false ∧
     ((leaveMeeting s cenv).1.state = .available ∨
      (leaveMeeting s cenv).1.state = .auth_required)) ∧
    ((dispose s cenv').1.inAutomationMeeting = false ∧
     (dispose s cenv').1.state = .available) := by
  refine ⟨⟨rfl, rfl⟩, ?_, ?_, ?_⟩
  · intro hc
    unfold closeContext
    simp [hc]
  · unfold leaveMeeting closeContext
    cases hc : s.contextOpen <;> simp [hc] <;> tauto
  · unfold dispose closeContext
    cases hc : s.contextOpen <;> simp [hc]

/-- C1 witness: the amended theorem applied at the concrete in-meeting state
with a hung close environment. -/
theorem sessionLoss_state_reset_witness :
    (contextCloseHandler meetingActiveState).inAutomationMeeting = false ∧
    (closeContext meetingActiveState hungCloseEnv).1.inAutomationMeeting = false ∧
    (leaveMeeting meetingActiveState hungCloseEnv).1.inAutomationMeeting = false ∧
    (dispose meetingActiveState hungCloseEnv).1.state = .available := by
  have h := sessionLoss_state_reset meetingActiveState hungCloseEnv hungCloseEnv
  exact ⟨h.1.1, (h.2.1 rfl).1, h.2.2.1.1, h.2.2.2.2⟩

/-! ## C2 -/

/-- C2: calling `joinMeeting` while `inAutomationMeeting` is already true is
a no-op that returns success immediately: no attempt of the join procedure
runs, no context is launched or closed, and the meeting flag, authentication
and context reference are unchanged. -/
theorem joinMeeting_already_active (s : AutomatorState) (env : Nat → AttemptOutcome)
    (cenv : CloseEnv) (h : s.inAutomationMeeting = true) :
    (joinMeeting s env cenv).2.1 = .ok () ∧
    (joinMeeting s env cenv).2.2 = ⟨0, 0, 0, false⟩ ∧
    (joinMeeting s env cenv).1.contextOpen = s.contextOpen ∧
    (joinMeeting s env cenv).1.inAutomationMeeting = true ∧
    (joinMeeting s env cenv).1.authenticated = s.authenticated ∧
    (joinMeeting s env cenv).1.state = .in_meeting := by
  unfold joinMeeting
  simp [h]

/-- C2 witness: the theorem applied at the concrete in-meeting state. -/
theorem joinMeeting_already_active_witness :
    (joinMeeting meetingActiveState (fun _ => .success) hungCloseEnv).2.1 = .ok () ∧
    (joinMeeting meetingActiveState (fun _ => .success) hungCloseEnv).2.2.launches = 0 := by
  have h := joinMeeting_already_active meetingActiveState (fun _ => .success)
    hungCloseEnv rfl
  exact ⟨h.1, by rw [h.2.1]⟩

/-! ## C6 -/

/-- C6: a `leaveMeeting` call with no session performs zero close attempts,
resolves successfully and normalizes state (`available`, or `auth_required`
when the last-known authentication is `false`); two consecutive leaves
perform exactly one close attempt when a session existed (zero otherwise)
and both resolve successfully. -/
theorem leaveMeeting_noop_and_double (s : AutomatorState) (cenv cenv' : CloseEnv) :
    (leaveMeeting s cenv).2.1 = .ok () ∧
    (leaveMeeting (leaveMeeting s cenv).1 cenv').2.1 = .ok () ∧
    (s.contextOpen = false →
      (leaveMeeting s cenv).2.2.1 = 0 ∧ (leaveMeeting s cenv).2.2.2 = 0) ∧
    (leaveMeeting s cenv).1.inAutomationMeeting = false ∧
    (leaveMeeting s cenv).1.state
      = (if s.authenticated = some false then .auth_required else .available) ∧
    (leaveMeeting s cenv).2.2.1 = (if s.contextOpen then 1 else 0) ∧
    (leaveMeeting (leaveMeeting s cenv).1 cenv').2.2.1 = 0 ∧
    (leaveMeeting (leaveMeeting s cenv).1 cenv').1.state
      = (if s.authenticated = some false then .auth_required else .available) := by
  unfold leaveMeeting closeContext
  cases hc : s.contextOpen <;> simp [hc]

/-- C6 witness: two consecutive leaves from the in-meeting state make
exactly one close attempt and both succeed; a leave from a no-session
unauthenticated state makes zero close attempts and ends `auth_required`. -/
theorem leaveMeeting_noop_and_double_witness :
    (leaveMeeting meetingActiveState hungCloseEnv).2.1 = .ok () ∧
    (leaveMeeting meetingActiveState hungCloseEnv).2.2.1 = 1 ∧
    (leaveMeeting (leaveMeeting meetingActiveState hungCloseEnv).1 hungCloseEnv).2.2.1 = 0 ∧
    (leaveMeeting ⟨false, false, false, some false, .error, "boom"⟩ hungCloseEnv).2.2.1 = 0 ∧
    (leaveMeeting ⟨false, false, false, some false, .error, "boom"⟩ hungCloseEnv).1.state
      = .auth_required := by
  have h := leaveMeeting_noop_and_double meetingActiveState hungCloseEnv hungCloseEnv
  have h2 := leaveMeeting_noop_and_double
    ⟨false, false, false, some false, .error, "boom"⟩ hungCloseEnv hungCloseEnv
  exact ⟨h.1, by rw [h.2.2.2.2.2.1]; rfl, h.2.2.2.2.2.2.1,
    (h2.2.2.1 rfl).1, by rw [h2.2.2.2.2.1]; rfl⟩

/-! ## C7 -/

/-- C7 counterexample: with a context open and both the graceful close and
the fallback browser close hanging, `leaveMeeting` takes 15400 ms — its
400 ms settle delay pushes it past the 10 s + 5 s sum of the close
timeouts. -/
theorem leaveMeeting_time_exceeds_timeout_sum :
    (leaveMeeting meetingActiveState hungCloseEnv).2.2.2 = 15400 ∧
    ¬((leaveMeeting meetingActiveState hungCloseEnv).2.2.2 ≤ 15000) := by
  decide

theorem closeFallbackTime_le (cenv : CloseEnv) : closeFallbackTime cenv ≤ 15000 := by
  unfold closeFallbackTime
  split
  · split
    · split <;> omega
    · omega
  · omega

theorem closeContext_time_le (s : AutomatorState) (cenv : CloseEnv) :
    (closeContext s cenv).2.1 ≤ 15000 := by
  unfold closeContext
  split
  · simp only
    cases ht : cenv.closeDuration
    · exact closeFallbackTime_le cenv
    · next t =>
      by_cases h10 : t < 10000
      · simp [h10]; omega
      · simp only [h10, if_false]
        exact closeFallbackTime_le cenv
  · simp

theorem leaveMeeting_time_le (s : AutomatorState) (cenv : CloseEnv) :
    (leaveMeeting s cenv).2.2.2 ≤ 15400 := by
  unfold leaveMeeting
  split
  · simp
  · have := closeContext_time_le
      { s with state := .starting,
               lastMessage := "Closing automation browser session" } cenv
    simp only
    omega

/-- C7 (amended): `closeContext` never propagates a failure, completes
within 10 s + 5 s for every environment (graceful close, swallowed error,
hang with fallback browser close, double hang), clears the context/page
references and the meeting flag, and is idempotent (a second call is an
immediate no-op); `leaveMeeting` resolves within that sum plus its fixed
400 ms settle delay. -/
theorem closeContext_bounded_idempotent (s : AutomatorState) (cenv cenv' : CloseEnv) :
    (closeContext s cenv).2.2 = .ok () ∧
    (closeContext s cenv).2.1 ≤ 15000 ∧
    (closeContext s cenv).1.contextOpen = false ∧
    (s.contextOpen = true →
      (closeContext s cenv).1.pageOpen = false ∧
      (closeContext s cenv).1.inAutomationMeeting = false) ∧
    closeContext (closeContext s cenv).1 cenv' = ((closeContext s cenv).1, 0, .ok ()) ∧
    (leaveMeeting s cenv).2.2.2 ≤ 15400 := by
  refine ⟨?_, closeContext_time_le s cenv, ?_, ?_, ?_, ?_⟩
  · unfold closeContext; split <;> rfl
  · unfold closeContext; split <;> simp_all
  · intro hc
    unfold closeContext
    simp [hc]
  · have h1 : ((closeContext s cenv).1).contextOpen = false := by
      unfold closeContext; split <;> simp_all
    generalize hx : (closeContext s cenv).1 = x at h1 ⊢
    unfold closeContext
    simp [h1]
  · exact leaveMeeting_time_le s cenv

/-- C7 witness: the amended theorem applied at the in-meeting state with the
doubly hung close environment. -/
theorem closeContext_bounded_idempotent_witness :
    (closeContext meetingActiveState hungCloseEnv).2.1 ≤ 15000 ∧
    (closeContext meetingActiveState hungCloseEnv).1.pageOpen = false ∧
    (leaveMeeting meetingActiveState hungCloseEnv).2.2.2 ≤ 15400 := by
  have h := closeContext_bounded_idempotent meetingActiveState hungCloseEnv hungCloseEnv
  exact ⟨h.2.1, (h.2.2.2.1 rfl).1, h.2.2.2.2.2⟩

/-! ## C8 -/

/-- C8 counterexample: the `/status` label is computed from the `inMeeting`
boolean, not from `state`: at the snapshot `state = in_meeting`,
`inMeeting = false` — reachable because the external context-close handler
clears the flag but leaves `state` at `in_meeting` — the label is
`"Available"`, not the claimed `"In Meeting"`. -/
theorem statusLabel_flag_divergence :
    statusLabel .in_meeting false = "Available" ∧
    statusLabel .in_meeting false ≠ specStatusLabel .in_meeting ∧
    (contextCloseHandler meetingActiveState).state = .in_meeting ∧
    (contextCloseHandler meetingActiveState).inAutomationMeeting = false := by
  decide

/-- C8 (amended): the `/status` label equals the claimed state-derived
mapping whenever the `inMeeting` boolean agrees with `state = in_meeting`;
in general the final `In Meeting`/`Available` choice is driven by the
`inMeeting` boolean, not by `state`. -/
theorem statusLabel_matches_spec_mapping (st : AutomatorStatus) (im : Bool)
    (h : im = decide (st = .in_meeting)) :
    statusLabel st im = specStatusLabel st := by
  subst h
  cases st <;> rfl

/-- C8 witness: the amended theorem applied at the three scenario states. -/
theorem statusLabel_matches_spec_mapping_witness :
    statusLabel .starting false = "Starting" ∧
    statusLabel .in_meeting true = "In Meeting" ∧
    statusLabel .available false = "Available" := by
  refine ⟨?_, ?_, ?_⟩
  · exact statusLabel_matches_spec_mapping .starting false (by decide)
  · exact statusLabel_matches_spec_mapping .in_meeting true (by decide)
  · exact statusLabel_matches_spec_mapping .available false (by decide)

/-! ## C9 -/

/-- C9: `detectAuthenticated` returns false exactly when the URL contains
one of the sign-in/login/SSO/MFA/verification fragments (case-insensitively)
or a "sign in" button or link is present; it is a pure function of the page
view (URL and locator counts), with no other inputs. -/
theorem detectAuthenticated_false_iff (p : PageView) :
    detectAuthenticated p = false ↔
      ((∃ pat ∈ authUrlFragments, hasSubCI pat.toList p.url.toList = true)
        ∨ 0 < p.signInButtonCount ∨ 0 < p.signInLinkCount) := by
  rw [show (∃ pat ∈ authUrlFragments, hasSubCI pat.toList p.url.toList = true)
        ↔ authUrlFragments.any (fun pat => hasSubCI pat.toList p.url.toList) = true from
      List.any_eq_true.symm]
  unfold detectAuthenticated
  split
  · next hurl => exact ⟨fun _ => Or.inl hurl, fun _ => rfl⟩
  · next hurl =>
    split
    · next hbtn => exact ⟨fun _ => Or.inr (Or.inl hbtn), fun _ => rfl⟩
    · next hbtn =>
      split
      · next hlnk => exact ⟨fun _ => Or.inr (Or.inr hlnk), fun _ => rfl⟩
      · next hlnk =>
        constructor
        · intro h
          simp at h
        · intro h
          rcases h with h | h | h
          · exact absurd h hurl
          · exact absurd h hbtn
          · exact absurd h hlnk

/-! ## C3 and C4: joinMeeting retry policy and cleanup -/

theorem closeContext_contextOpen (s : AutomatorState) (cenv : CloseEnv) :
    ((closeContext s cenv).1).contextOpen = false := by
  unfold closeContext
  split <;> simp_all

theorem closeContext_pageOpen (s : AutomatorState) (cenv : CloseEnv) :
    ((closeContext s cenv).1).pageOpen = (if s.contextOpen then false else s.pageOpen) := by
  unfold closeContext
  split <;> simp_all

theorem joinOuterCatch_props (s : AutomatorState) (e : JsVal) (cenv : CloseEnv) :
    (joinOuterCatch s e cenv).2 = .error e ∧
    (joinOuterCatch s e cenv).1.contextOpen = false ∧
    ((joinOuterCatch s e cenv).1.pageOpen = if s.contextOpen then false else s.pageOpen) := by
  unfold joinOuterCatch
  split <;> split <;>
    simp [closeContext_contextOpen, closeContext_pageOpen]

theorem joinOuterCatch_after_close (y : AutomatorState) (e : JsVal) (cenv c2 : CloseEnv)
    (hy : y.contextOpen = true) :
    (joinOuterCatch (closeContext y c2).1 e cenv).1.contextOpen = false ∧
    (joinOuterCatch (closeContext y c2).1 e cenv).1.pageOpen = false := by
  have h := joinOuterCatch_props (closeContext y c2).1 e cenv
  refine ⟨h.2.1, ?_⟩
  rw [h.2.2, closeContext_contextOpen, closeContext_pageOpen, hy]
  simp

theorem runAttempt_contextOpen (s : AutomatorState) (o : AttemptOutcome) :
    (runAttempt s o).1.contextOpen = true := by
  cases o <;> simp [runAttempt, ensureContext_fst_contextOpen]

theorem runAttempt_result_success (s : AutomatorState) :
    (runAttempt s .success).2.2 = .ok () := rfl

theorem runAttempt_result_auth (s : AutomatorState) :
    (runAttempt s .authRequired).2.2
      = .error { isErrorInstance := true, message := loginRequiredMsg } := rfl

theorem runAttempt_result_failure (s : AutomatorState) (v : JsVal) :
    (runAttempt s (.failure v)).2.2 = .error v := rfl

theorem runAttempt_launched (s : AutomatorState) (o : AttemptOutcome) :
    (runAttempt s o).2.1 = !s.contextOpen := by
  cases o <;> simp [runAttempt, ensureContext_snd]

/-- The explicit auth-required failure message is not classified as a
retryable join timeout. -/
theorem authRequired_not_retryable :
    isRetryableJoinTimeout { isErrorInstance := true, message := loginRequiredMsg }
      = false := by
  decide

/-- C3: from a not-in-meeting state, `joinMeeting` makes at most two
attempts; a second attempt happens exactly when the first attempt throws a
timeout-classified value; between attempts the session is torn down
(`closeContext` ran) and the second attempt starts on a freshly launched
context; a failing second attempt's error propagates (no third attempt
exists since attempts ≤ 2); a non-timeout first failure is not retried and
propagates, and in particular an explicit auth-required first attempt is
never retried. -/
theorem joinMeeting_retry_policy (s : AutomatorState) (env : Nat → AttemptOutcome)
    (cenv : CloseEnv) (h : s.inAutomationMeeting = false) :
    1 ≤ (joinMeeting s env cenv).2.2.attempts ∧
    (joinMeeting s env cenv).2.2.attempts ≤ 2 ∧
    ((joinMeeting s env cenv).2.2.attempts = 2 ↔ outcomeRetryable (env 1) = true) ∧
    ((joinMeeting s env cenv).2.2.attempts = 2 →
      (joinMeeting s env cenv).2.2.attempt2Fresh = true ∧
      1 ≤ (joinMeeting s env cenv).2.2.closes) ∧
    (∀ v, outcomeThrown (env 1) = some v → isRetryableJoinTimeout v = false →
      (joinMeeting s env cenv).2.2.attempts = 1 ∧
      (joinMeeting s env cenv).2.1 = .error v) ∧
    (∀ v, outcomeRetryable (env 1) = true → outcomeThrown (env 2) = some v →
      (joinMeeting s env cenv).2.1 = .error v) ∧
    (env 1 = .authRequired → (joinMeeting s env cenv).2.2.attempts = 1) := by
  cases h1 : env 1 with
  | success =>
    simp [joinMeeting, h, h1, runAttempt, outcomeRetryable, outcomeThrown]
  | authRequired =>
    simp [joinMeeting, h, h1, runAttempt, outcomeRetryable, outcomeThrown,
          authRequired_not_retryable, (joinOuterCatch_props _ _ cenv).1]
  | failure v =>
    by_cases hr : isRetryableJoinTimeout v = true
    · cases h2 : env 2 with
      | success =>
        simp [joinMeeting, h, h1, h2, runAttempt, outcomeRetryable, outcomeThrown,
              hr, ensureContext_snd, closeContext_contextOpen]
      | authRequired =>
        simp [joinMeeting, h, h1, h2, runAttempt, outcomeRetryable, outcomeThrown,
              hr, ensureContext_snd, closeContext_contextOpen,
              (joinOuterCatch_props _ _ cenv).1]
      | failure w =>
        simp [joinMeeting, h, h1, h2, runAttempt, outcomeRetryable, outcomeThrown,
              hr, ensureContext_snd, closeContext_contextOpen,
              (joinOuterCatch_props _ _ cenv).1]
    · simp only [Bool.not_eq_true] at hr
      simp [joinMeeting, h, h1, runAttempt, outcomeRetryable, outcomeThrown, hr,
            (joinOuterCatch_props _ _ cenv).1]

/-- C3 witness: a timeout-classified first failure is retried once on a
fresh session, and the second failure's error propagates. -/
theorem joinMeeting_retry_policy_witness :
    (joinMeeting ⟨false, false, false, none, .available, "Idle"⟩
        (fun _ => .failure ⟨true, "page.goto: Timeout 20000ms exceeded."⟩)
        hungCloseEnv).2.2.attempts = 2 ∧
    (joinMeeting ⟨false, false, false, none, .available, "Idle"⟩
        (fun _ => .failure ⟨true, "page.goto: Timeout 20000ms exceeded."⟩)
        hungCloseEnv).2.2.attempt2Fresh = true ∧
    (joinMeeting ⟨false, false, false, none, .available, "Idle"⟩
        (fun _ => .failure ⟨true, "page.goto: Timeout 20000ms exceeded."⟩)
        hungCloseEnv).2.1
      = .error ⟨true, "page.goto: Timeout 20000ms exceeded."⟩ := by
  have h := joinMeeting_retry_policy ⟨false, false, false, none, .available, "Idle"⟩
    (fun _ => .failure ⟨true, "page.goto: Timeout 20000ms exceeded."⟩)
    hungCloseEnv rfl
  have hret : outcomeRetryable
      (AttemptOutcome.failure ⟨true, "page.goto: Timeout 20000ms exceeded."⟩) = true := by
    decide
  have h2 := h.2.2.1.mpr hret
  exact ⟨h2, (h.2.2.2.1 h2).1,
    h.2.2.2.2.2.1 ⟨true, "page.goto: Timeout 20000ms exceeded."⟩ hret rfl⟩

/-- C4: whenever `joinMeeting` returns an error, the final state has no
open context and no page reference, and a subsequent `ensureContext` would
launch a fresh session. -/
theorem joinMeeting_failure_cleans_up (s : AutomatorState) (env : Nat → AttemptOutcome)
    (cenv : CloseEnv) (e : JsVal) (h : (joinMeeting s env cenv).2.1 = .error e) :
    (joinMeeting s env cenv).1.contextOpen = false ∧
    (joinMeeting s env cenv).1.pageOpen = false ∧
    (ensureContext (joinMeeting s env cenv).1 true).2 = true := by
  have hmain : (joinMeeting s env cenv).1.contextOpen = false ∧
      (joinMeeting s env cenv).1.pageOpen = false := by
    cases hm : s.inAutomationMeeting with
    | true => simp [joinMeeting, hm] at h
    | false =>
      cases h1 : env 1 with
      | success =>
        simp [joinMeeting, hm, h1, runAttempt_result_success] at h
      | authRequired =>
        simp only [joinMeeting, hm, h1]
        simp only [runAttempt_result_auth, authRequired_not_retryable]
        simp only [Bool.false_eq_true, if_false, reduceIte]
        exact joinOuterCatch_after_close _ _ cenv cenv (runAttempt_contextOpen _ _)
      | failure v =>
        by_cases hr : isRetryableJoinTimeout v = true
        · cases h2 : env 2 with
          | success =>
            simp [joinMeeting, hm, h1, h2, hr, runAttempt_result_failure,
                  runAttempt_result_success] at h
          | authRequired =>
            simp only [joinMeeting, hm, h1, h2]
            simp only [runAttempt_result_failure, runAttempt_result_auth, hr]
            simp only [Bool.false_eq_true, if_false, if_true, reduceIte]
            exact joinOuterCatch_after_close _ _ cenv cenv (runAttempt_contextOpen _ _)
          | failure w =>
            simp only [joinMeeting, hm, h1, h2]
            simp only [runAttempt_result_failure, hr]
            simp only [Bool.false_eq_true, if_false, if_true, reduceIte]
            exact joinOuterCatch_after_close _ _ cenv cenv (runAttempt_contextOpen _ _)
        · simp only [Bool.not_eq_true] at hr
          simp only [joinMeeting, hm, h1]
          simp only [runAttempt_result_failure, hr]
          simp only [Bool.false_eq_true, if_false, reduceIte]
          exact joinOuterCatch_after_close _ _ cenv cenv (runAttempt_contextOpen _ _)
  refine ⟨hmain.1, hmain.2, ?_⟩
  rw [ensureContext_snd, hmain.1]
  rfl

/-- C4 witness: the theorem applied to a non-retryable failing join. -/
theorem joinMeeting_failure_cleans_up_witness :
    (joinMeeting ⟨true, true, false, some true, .available, "Idle"⟩
        (fun _ => .failure ⟨true, "Unable to find a New Meeting button in Zoom web app"⟩)
        hungCloseEnv).1.contextOpen = false ∧
    (ensureContext (joinMeeting ⟨true, true, false, some true, .available, "Idle"⟩
        (fun _ => .failure ⟨true, "Unable to find a New Meeting button in Zoom web app"⟩)
        hungCloseEnv).1 true).2 = true := by
  have h := joinMeeting_failure_cleans_up
    ⟨true, true, false, some true, .available, "Idle"⟩
    (fun _ => .failure ⟨true, "Unable to find a New Meeting button in Zoom web app"⟩)
    hungCloseEnv
    ⟨true, "Unable to find a New Meeting button in Zoom web app"⟩
    rfl
  exact ⟨h.1, h.2.2⟩

/-! ## C5: waitForMeetingStarted -/

theorem waitLoop_shape (obs : Nat → PollObs) (clock : Nat → Nat) (fuel i : Nat) :
    waitLoop obs clock i fuel = .ok () ∨
    waitLoop obs clock i fuel = .error meetingStartTimeoutErr := by
  induction fuel generalizing i with
  | zero => exact Or.inr rfl
  | succ n ih =>
    unfold waitLoop
    split
    · split
      · exact Or.inl rfl
      · exact ih (i + 1)
    · exact Or.inr rfl

theorem clock_add_le (clock : Nat → Nat) (Hmono : ∀ j, clock j + 250 ≤ clock (j + 1))
    (i k : Nat) : clock i + 250 * k ≤ clock (i + k) := by
  induction k with
  | zero => simp
  | succ n ih =>
    have h := Hmono (i + n)
    calc clock i + 250 * (n + 1) = clock i + 250 * n + 250 := by ring
    _ ≤ clock (i + n) + 250 := by omega
    _ ≤ clock (i + n + 1) := h
    _ = clock (i + (n + 1)) := rfl

theorem clock_mono (clock : Nat → Nat) (Hmono : ∀ j, clock j + 250 ≤ clock (j + 1))
    {i j : Nat} (hij : i ≤ j) : clock i ≤ clock j := by
  have h := clock_add_le clock Hmono i (j - i)
  rw [Nat.add_sub_cancel' hij] at h
  omega

theorem waitLoop_ok_iff (obs : Nat → PollObs) (clock : Nat → Nat)
    (Hmono : ∀ j, clock j + 250 ≤ clock (j + 1)) :
    ∀ fuel i, meetingStartDeadlineMs ≤ clock (i + fuel) →
      (waitLoop obs clock i fuel = .ok () ↔
        ∃ j, i ≤ j ∧ clock j < meetingStartDeadlineMs ∧
          meetingStartedCheck (obs j) = true) := by
  intro fuel
  induction fuel with
  | zero =>
    intro i hf
    constructor
    · intro hok
      simp [waitLoop] at hok
    · rintro ⟨j, hij, hj, _⟩
      exfalso
      have := clock_mono clock Hmono hij
      rw [Nat.add_zero] at hf
      omega
  | succ n ih =>
    intro i hf
    unfold waitLoop
    by_cases hc : clock i < meetingStartDeadlineMs
    · rw [if_pos hc]
      by_cases hcheck : meetingStartedCheck (obs i) = true
      · rw [if_pos hcheck]
        exact ⟨fun _ => ⟨i, le_refl i, hc, hcheck⟩, fun _ => rfl⟩
      · rw [if_neg hcheck]
        have hf' : meetingStartDeadlineMs ≤ clock (i + 1 + n) := by
          rw [show i + 1 + n = i + (n + 1) from by omega]
          exact hf
        rw [ih (i + 1) hf']
        constructor
        · rintro ⟨j, hij, hj, hchk⟩
          exact ⟨j, by omega, hj, hchk⟩
        · rintro ⟨j, hij, hj, hchk⟩
          rcases eq_or_lt_of_le hij with heq | hlt
          · subst heq
            exact absurd hchk hcheck
          · exact ⟨j, hlt, hj, hchk⟩
    · rw [if_neg hc]
      constructor
      · intro hok
        simp at hok
      · rintro ⟨j, hij, hj, _⟩
        exfalso
        have := clock_mono clock Hmono hij
        omega

/-- Every entry of the in-meeting signal list carries `strong := true`. -/
theorem inMeetingSignals_all_strong : ∀ x ∈ inMeetingSignals, x.2 = true := by
  decide

/-- C5 (amended): with the clock advancing by at least the 250 ms poll
interval each iteration, `waitForMeetingStarted` succeeds exactly when some
iteration before the 26 000 ms deadline observes the success condition —
URL moved off the home/sign-in routes, a signal matched, and the signal is
strong or no pre-join prompt is visible — and otherwise fails with the
timeout error; success requires the URL to have moved off home and a
matched signal, and every matchable signal (cross-frame, page-level or
title fallback) is strong, so pre-join visibility never blocks success. -/
theorem waitForMeetingStarted_spec (obs : Nat → PollObs) (clock : Nat → Nat)
    (Hmono : ∀ j, clock j + 250 ≤ clock (j + 1)) :
    (waitForMeetingStarted obs clock = .ok () ↔
      ∃ j, clock j < meetingStartDeadlineMs ∧ meetingStartedCheck (obs j) = true) ∧
    (waitForMeetingStarted obs clock = .ok () ∨
      waitForMeetingStarted obs clock = .error meetingStartTimeoutErr) ∧
    meetingStartDeadlineMs = 26000 ∧
    (∀ o, meetingStartedCheck o = true →
      movedOffHome o.url = true ∧ (matchedSignalOf o).isSome = true) ∧
    (∀ o n b, matchedSignalOf o = some (n, b) → b = true) := by
  refine ⟨?_, waitLoop_shape obs clock 105 0, rfl, ?_, ?_⟩
  · have hf : meetingStartDeadlineMs ≤ clock (0 + 105) := by
      have h := clock_add_le clock Hmono 0 105
      simp only [meetingStartDeadlineMs]
      omega
    rw [show waitForMeetingStarted obs clock = waitLoop obs clock 0 105 from rfl,
        waitLoop_ok_iff obs clock Hmono 105 0 hf]
    constructor
    · rintro ⟨j, _, hj, hchk⟩
      exact ⟨j, hj, hchk⟩
    · rintro ⟨j, hj, hchk⟩
      exact ⟨j, Nat.zero_le j, hj, hchk⟩
  · intro o ho
    unfold meetingStartedCheck at ho
    cases hms : matchedSignalOf o with
    | none => rw [hms] at ho; cases ho
    | some sb =>
      rw [hms] at ho
      obtain ⟨n, b⟩ := sb
      simp only [Bool.and_eq_true] at ho
      exact ⟨ho.1, rfl⟩
  · intro o n b hmb
    unfold matchedSignalOf at hmb
    cases hfr : findMeetingUiSignal o with
    | some m =>
      rw [hfr] at hmb
      simp only [Option.some.injEq, Prod.mk.injEq] at hmb
      exact hmb.2.symm
    | none =>
      rw [hfr] at hmb
      cases hfind : inMeetingSignals.find? (fun sig => o.signalVisible.contains sig.1) with
      | some sig =>
        rw [hfind] at hmb
        simp only [Option.some.injEq] at hmb
        have hmem := List.mem_of_find?_eq_some hfind
        have := inMeetingSignals_all_strong sig hmem
        rw [hmb] at this
        exact this
      | none =>
        rw [hfind] at hmb
        by_cases ht : (hasSubCI "zoom meeting".toList o.title.toList
            && wcStartJoinSub o.url.toList) = true
        · rw [if_pos ht] at hmb
          simp only [Option.some.injEq, Prod.mk.injEq] at hmb
          exact hmb.2.symm
        · rw [if_neg ht] at hmb
          cases hmb

/-- A poll observation of a normally started meeting: off-home URL, the
`end` control visible in a frame, no pre-join prompt. -/
def activeMeetingObs : PollObs :=
  { url := "https://app.zoom.us/wc/95123456789/start",
    title := "Zoom Meeting",
    preJoinVisible := false,
    frameVisible := ["end"],
    signalVisible := [] }

/-- C5 witness: the amended theorem applied to a constant observation with
the meeting active and the standard 250 ms clock. -/
theorem waitForMeetingStarted_spec_witness :
    waitForMeetingStarted (fun _ => activeMeetingObs) (fun i => 250 * i)
      = .ok () := by
  have h := waitForMeetingStarted_spec (fun _ => activeMeetingObs)
    (fun i => 250 * i) (fun j => by show 250 * j + 250 ≤ 250 * (j + 1); omega)
  exact h.1.mpr ⟨0, by decide, by decide⟩

/-- A poll observation with a strong in-meeting signal while a pre-join
prompt is still visible. -/
def strongWithPreJoinObs : PollObs :=
  { url := "https://app.zoom.us/wc/95123456789/start",
    title := "Zoom Meeting",
    preJoinVisible := true,
    frameVisible := [],
    signalVisible := ["role-leave-end"] }

/-- C5 counterexample: with a strong signal matched and a pre-join prompt
concurrently visible, the iteration's check — and the whole wait — still
succeeds, because every signal is strong and the code requires
`strong || !preJoinVisible`, while the claim requires no pre-join prompt. -/
theorem meetingStarted_despite_preJoin :
    strongWithPreJoinObs.preJoinVisible = true ∧
    meetingStartedCheck strongWithPreJoinObs = true ∧
    specMeetingStartedCheck strongWithPreJoinObs = false ∧
    waitForMeetingStarted (fun _ => strongWithPreJoinObs) (fun i => 250 * i)
      = .ok () := by
  exact ⟨rfl, rfl, rfl, rfl⟩

end GMeetZoom
